import Mathlib

/-!
Verification of the loan-amortization service (`src/main.py`).

The amortization engine (`calculate_monthly_payment`, `calculate_loan_schedule`,
`calculate_loan_summary`) is embedded over ℚ: the Python code computes with
`Decimal` (exact for the comparisons checked here), which we model as exact
rational arithmetic.  The HTTP endpoints are embedded as pure functions from an
explicit database state (lists of `User` and `Loan` rows) to `Except` results,
where `HTTPException(status, detail)` becomes the error branch.  Python's
negative list indexing (used by `calculate_loan_summary` when `month_number`
is 0) is modelled by `pyGet`.
-/

namespace LoanApp

/-- `User` table row (`main.py`, class `User`). -/
structure User where
  id : ℤ
  username : String
deriving DecidableEq

/-- `Loan` table row (`main.py`, class `Loan`). -/
structure Loan where
  id : ℤ
  amount : ℚ
  annual_interest_rate : ℚ
  loan_term : ℤ
  user_id : ℤ
deriving DecidableEq

/-- Request body of `POST /create_loan` (`main.py`, class `LoanCreate`). -/
structure LoanCreate where
  user_id : ℤ
  amount : ℚ
  annual_interest_rate : ℚ
  loan_term : ℤ
deriving DecidableEq

/-- One amortization schedule entry (`main.py`, class `LoanSchedule`). -/
structure LoanSchedule where
  month : ℤ
  remaining_balance : ℚ
  monthly_payment : ℚ
deriving DecidableEq

/-- Summary of a loan as of a month (`main.py`, class `LoanSummary`). -/
structure LoanSummary where
  current_principal_balance : ℚ
  aggregate_principal_paid : ℚ
  aggregate_interest_paid : ℚ
deriving DecidableEq

/-- The database state: the two tables. -/
structure DB where
  users : List User
  loans : List Loan
deriving DecidableEq

/-- An `HTTPException(status_code, detail)`. -/
structure HTTPError where
  status_code : ℕ
  detail : String
deriving DecidableEq

/-- `calculate_monthly_payment` (`main.py` lines 103-106). -/
def calculate_monthly_payment (amount : ℚ) (annual_interest_rate : ℚ)
    (loan_term : ℤ) : ℚ :=
  let monthly_interest_rate := annual_interest_rate / 12 / 100
  (amount * monthly_interest_rate) / (1 - (1 + monthly_interest_rate) ^ (-loan_term))

/-- The loop body of `calculate_loan_schedule` (`main.py` lines 115-125):
`k` months remain, `balance` is the running balance, `month` the next month
index. -/
def scheduleAux (monthly_interest_rate monthly_payment : ℚ) :
    ℕ → ℚ → ℤ → List LoanSchedule
  | 0, _, _ => []
  | k + 1, balance, month =>
      let interest_payment := balance * monthly_interest_rate
      let principal_payment := monthly_payment - interest_payment
      let remaining_balance := balance - principal_payment
      { month := month
        remaining_balance := remaining_balance
        monthly_payment := monthly_payment } ::
        scheduleAux monthly_interest_rate monthly_payment k remaining_balance (month + 1)

/-- `calculate_loan_schedule` (`main.py` lines 109-127).  `range(1, loan_term+1)`
iterates `loan_term` times when `loan_term ≥ 0` and not at all otherwise,
hence `loan_term.toNat`. -/
def calculate_loan_schedule (amount : ℚ) (annual_interest_rate : ℚ)
    (loan_term : ℤ) : List LoanSchedule :=
  let monthly_interest_rate := annual_interest_rate / 12 / 100
  let monthly_payment := calculate_monthly_payment amount annual_interest_rate loan_term
  scheduleAux monthly_interest_rate monthly_payment loan_term.toNat amount 1

/-- Python list indexing `l[i]`: non-negative indices from the front, negative
indices from the back, `none` for `IndexError`. -/
def pyGet (l : List α) (i : ℤ) : Option α :=
  if 0 ≤ i then l.get? i.toNat
  else if 0 ≤ (l.length : ℤ) + i then l.get? ((l.length : ℤ) + i).toNat
  else none

/-- `calculate_loan_summary` (`main.py` lines 140-154).  The two list
subscripts `schedule[month_number - 1]` and `schedule[0]` can raise
`IndexError`, hence the `Option`. -/
def calculate_loan_summary (amount : ℚ) (month_number : ℤ)
    (schedule : List LoanSchedule) : Option LoanSummary :=
  match pyGet schedule (month_number - 1), pyGet schedule 0 with
  | some entry, some first =>
      let total_paid := first.monthly_payment * (month_number : ℚ)
      let aggregate_principal_paid := amount - entry.remaining_balance
      let aggregate_interest_paid := total_paid - aggregate_principal_paid
      some { current_principal_balance := entry.remaining_balance
             aggregate_principal_paid := aggregate_principal_paid
             aggregate_interest_paid := aggregate_interest_paid }
  | _, _ => none

/-- Fresh id assigned by the store on insert (SQLite autoincrement:
one more than the largest existing id). -/
def nextUserId (db : DB) : ℤ :=
  (db.users.map User.id).foldr max 0 + 1

/-- Fresh id assigned by the store on insert of a `Loan` row. -/
def nextLoanId (db : DB) : ℤ :=
  (db.loans.map Loan.id).foldr max 0 + 1

/-- `POST /create_user` (`main.py` lines 78-84): no validation at all; the
row is inserted and returned. -/
def create_user (db : DB) (username : String) : Except HTTPError (DB × User) :=
  let user : User := { id := nextUserId db, username := username }
  .ok ({ db with users := db.users ++ [user] }, user)

/-- pydantic `decimal_places = d` on a `Decimal` field: the value has at most
`d` decimal places, i.e. `q * 10 ^ d` is an integer. -/
def decimalPlacesAtMost (d : ℕ) (q : ℚ) : Prop :=
  (q * 10 ^ d).den = 1

instance (d : ℕ) (q : ℚ) : Decidable (decimalPlacesAtMost d q) :=
  inferInstanceAs (Decidable ((q * 10 ^ d).den = 1))

/-- `POST /create_loan` (`main.py` lines 87-100).  FastAPI first validates the
`LoanCreate` body (`main.py` lines 57-61: `amount ≥ 1` with at most 2 decimal
places, `annual_interest_rate > 0` with at most 4 decimal places, status 422
on failure); then the handler checks `amount <= 0` and `loan_term <= 0` with
status 404.  The `user_id` is never checked. -/
def create_loan (db : DB) (lc : LoanCreate) : Except HTTPError (DB × Loan) :=
  if ¬ (1 ≤ lc.amount) then
    .error { status_code := 422, detail := "Input should be greater than or equal to 1" }
  else if ¬ decimalPlacesAtMost 2 lc.amount then
    .error { status_code := 422,
             detail := "Decimal input should have no more than 2 decimal places" }
  else if ¬ (0 < lc.annual_interest_rate) then
    .error { status_code := 422, detail := "Input should be greater than 0" }
  else if ¬ decimalPlacesAtMost 4 lc.annual_interest_rate then
    .error { status_code := 422,
             detail := "Decimal input should have no more than 4 decimal places" }
  else if lc.amount ≤ 0 then
    .error { status_code := 404, detail := "Loan amount cannot be negative or zero" }
  else if lc.loan_term ≤ 0 then
    .error { status_code := 404, detail := "Loan term cannot be negative or zero" }
  else if lc.amount ≤ 0 then
    .error { status_code := 404, detail := "Loan amount cannot be negative or zero" }
  else
    let loan : Loan :=
      { id := nextLoanId db
        amount := lc.amount
        annual_interest_rate := lc.annual_interest_rate
        loan_term := lc.loan_term
        user_id := lc.user_id }
    .ok ({ db with loans := db.loans ++ [loan] }, loan)

/-- `db.get(Loan, loan_id)`. -/
def getLoan (db : DB) (loan_id : ℤ) : Option Loan :=
  db.loans.find? (fun l => l.id == loan_id)

/-- `db.get(User, user_id)`. -/
def getUser (db : DB) (user_id : ℤ) : Option User :=
  db.users.find? (fun u => u.id == user_id)

/-- `GET /loan/{loan_id}/summary` (`main.py` lines 157-168): 404 when the loan
is unknown, 400 only when `month > loan.loan_term`; an `IndexError` inside
`calculate_loan_summary` surfaces as a 500. -/
def loan_summary (db : DB) (loan_id : ℤ) (month : ℤ) : Except HTTPError LoanSummary :=
  match getLoan db loan_id with
  | none => .error { status_code := 404, detail := "Loan not found" }
  | some loan =>
      if month > loan.loan_term then
        .error { status_code := 400, detail := "Invalid month number" }
      else
        match calculate_loan_summary loan.amount month
            (calculate_loan_schedule loan.amount loan.annual_interest_rate loan.loan_term) with
        | some s => .ok s
        | none => .error { status_code := 500, detail := "Internal Server Error" }

/-- `GET /user/{user_id}/loans` (`main.py` lines 171-178).  The query is
`select(Loan).filter(Loan.user_id == User.id)`: a cartesian product of the
`loan` and `user` tables filtered on `loan.user_id = user.id` — the requested
`user_id` parameter is never used in the filter. -/
def user_loans (db : DB) (user_id : ℤ) : Except HTTPError (List Loan) :=
  match getUser db user_id with
  | none => .error { status_code := 404, detail := "User not found" }
  | some _ =>
      .ok (db.loans.flatMap fun l =>
        (db.users.filter fun u => l.user_id == u.id).map fun _ => l)

/-- `POST /loan/{loan_id}/share/{recipient_user_id}` (`main.py` lines
181-204). -/
def share_loan (db : DB) (loan_id : ℤ) (recipient_user_id : ℤ) :
    Except HTTPError (DB × Loan) :=
  match getLoan db loan_id with
  | none => .error { status_code := 404, detail := "Loan not found" }
  | some loan =>
      match getUser db recipient_user_id with
      | none => .error { status_code := 404, detail := "Recipient user not found" }
      | some recipient_user =>
          if loan.user_id == recipient_user.id then
            .error { status_code := 404
                     detail := "Loan cannot be shared with the original owner" }
          else
            let new_loan : Loan :=
              { id := nextLoanId db
                user_id := recipient_user.id
                amount := loan.amount
                annual_interest_rate := loan.annual_interest_rate
                loan_term := loan.loan_term }
            .ok ({ db with loans := db.loans ++ [new_loan] }, new_loan)

/-- The balance recurrence driven by the loop of `calculate_loan_schedule`:
`bal r p b m` is the remaining balance after `m` payments starting from `b`. -/
def bal (r p : ℚ) (b : ℚ) : ℕ → ℚ
  | 0 => b
  | m + 1 => bal r p b m - (p - bal r p b m * r)

/-- Rounding to 2 decimal places, as `round(x, 2)` does for the values checked
here (none sits on a half-way boundary). -/
def round2 (x : ℚ) : ℚ :=
  ((round (x * 100) : ℤ) : ℚ) / 100

/-- Empty database. -/
def db0 : DB := { users := [], loans := [] }

/-- One user owning one single-month loan of 100 at 1200% annual interest
(so the monthly rate is 1 and the schedule is short and exactly computable). -/
def db1 : DB :=
  { users := [{ id := 1, username := "alice" }]
    loans := [{ id := 1, amount := 100, annual_interest_rate := 1200,
                loan_term := 1, user_id := 1 }] }

/-- A well-formed loan-creation request for user 1. -/
def lcValid : LoanCreate :=
  { user_id := 1, amount := 1000, annual_interest_rate := 5, loan_term := 12 }

/-- A loan-creation request with amount 0. -/
def lcZeroAmount : LoanCreate :=
  { user_id := 1, amount := 0, annual_interest_rate := 5, loan_term := 12 }

/-- Two users; user 1 owns one loan. -/
def db2 : DB :=
  { users := [{ id := 1, username := "alice" }, { id := 2, username := "bob" }]
    loans := [{ id := 1, amount := 1000, annual_interest_rate := 5,
                loan_term := 12, user_id := 1 }] }

theorem scheduleAux_length (r p : ℚ) (k : ℕ) (b : ℚ) (month : ℤ) :
    (scheduleAux r p k b month).length = k := by
  induction k generalizing b month with
  | zero => rfl
  | succ k ih => simp [scheduleAux, ih]

theorem bal_shift (r p b : ℚ) (i : ℕ) :
    bal r p (b - (p - b * r)) i = bal r p b (i + 1) := by
  induction i with
  | zero => rfl
  | succ i ih =>
    rw [bal, ih]
    conv_rhs => rw [bal]

theorem scheduleAux_get? (r p : ℚ) (k : ℕ) (b : ℚ) (month : ℤ) (i : ℕ) (h : i < k) :
    (scheduleAux r p k b month).get? i =
      some { month := month + i, remaining_balance := bal r p b (i + 1),
             monthly_payment := p } := by
  induction k generalizing b month i with
  | zero => omega
  | succ k ih =>
    cases i with
    | zero => simp [scheduleAux, bal]
    | succ i =>
      have hrec := ih (b - (p - b * r)) (month + 1) i (by omega)
      simp only [scheduleAux, List.get?_cons_succ, hrec, bal_shift]
      congr 2
      push_cast
      ring

theorem bal_closed (r p b : ℚ) (hr : r ≠ 0) (m : ℕ) :
    bal r p b m = (b - p / r) * (1 + r) ^ m + p / r := by
  induction m with
  | zero => rw [bal]; ring
  | succ m ih =>
    rw [bal, ih, pow_succ]
    field_simp
    ring

theorem denom_bounds (r : ℚ) (n : ℤ) (hr : 0 < r) (hn : 1 ≤ n) :
    0 < 1 - (1 + r) ^ (-n) ∧ 1 - (1 + r) ^ (-n) < 1 := by
  have h1 : (1 : ℚ) < 1 + r := by linarith
  have hA : 1 < (1 + r) ^ n := one_lt_zpow₀ h1 (by omega)
  have hApos : 0 < (1 + r) ^ n := lt_trans one_pos hA
  rw [zpow_neg]
  constructor
  · have : ((1 + r) ^ n)⁻¹ < 1 := inv_lt_one_of_one_lt₀ hA
    linarith
  · have : 0 < ((1 + r) ^ n)⁻¹ := inv_pos.mpr hApos
    linarith

theorem payment_gt_interest (P rate : ℚ) (n : ℤ) (hP : 0 < P) (hr : 0 < rate)
    (hn : 1 ≤ n) :
    P * (rate / 12 / 100) < calculate_monthly_payment P rate n := by
  have hrm : 0 < rate / 12 / 100 := by positivity
  obtain ⟨hd0, hd1⟩ := denom_bounds (rate / 12 / 100) n hrm hn
  have hPr : 0 < P * (rate / 12 / 100) := by positivity
  show P * (rate / 12 / 100) <
    (P * (rate / 12 / 100)) / (1 - (1 + rate / 12 / 100) ^ (-n))
  rw [lt_div_iff₀ hd0]
  exact mul_lt_of_lt_one_right hPr hd1

theorem calculate_loan_schedule_eq (P rate : ℚ) (n : ℤ) :
    calculate_loan_schedule P rate n =
      scheduleAux (rate / 12 / 100) (calculate_monthly_payment P rate n) n.toNat P 1 :=
  rfl

theorem calculate_monthly_payment_eq (P rate : ℚ) (n : ℤ) :
    calculate_monthly_payment P rate n =
      (P * (rate / 12 / 100)) / (1 - (1 + rate / 12 / 100) ^ (-n)) :=
  rfl

theorem bal_le_and_decreasing (r p P : ℚ) (hr : 0 < r) (hp : P * r < p) :
    ∀ m, bal r p P m ≤ P ∧ bal r p P (m + 1) < bal r p P m := by
  intro m
  induction m with
  | zero =>
    refine ⟨le_refl P, ?_⟩
    show bal r p P 0 - (p - bal r p P 0 * r) < bal r p P 0
    rw [bal]
    linarith
  | succ m ih =>
    obtain ⟨hle, hlt⟩ := ih
    have hle2 : bal r p P (m + 1) ≤ P := le_of_lt (lt_of_lt_of_le hlt hle)
    refine ⟨hle2, ?_⟩
    have hbr : bal r p P (m + 1) * r ≤ P * r :=
      mul_le_mul_of_nonneg_right hle2 (le_of_lt hr)
    show bal r p P (m + 1) - (p - bal r p P (m + 1) * r) < bal r p P (m + 1)
    linarith

theorem annuity_algebra (r A P : ℚ) (hr : r ≠ 0) (hA1 : A - 1 ≠ 0)
    (hA : A ≠ 0) :
    (P - ((P * r) / (1 - A⁻¹)) / r) * A + ((P * r) / (1 - A⁻¹)) / r = 0 := by
  have h1 : 1 - A⁻¹ = (A - 1) / A := by
    field_simp
  rw [h1]
  field_simp
  ring

theorem bal_final_zero (P rate : ℚ) (n : ℤ) (hP : 0 < P) (hr : 0 < rate)
    (hn : 1 ≤ n) :
    bal (rate / 12 / 100) (calculate_monthly_payment P rate n) P n.toNat = 0 := by
  have hr0 : 0 < rate / 12 / 100 := by positivity
  have h1 : (1 : ℚ) < 1 + rate / 12 / 100 := by linarith
  have h0 : (0 : ℚ) < 1 + rate / 12 / 100 := by linarith
  have hA1 : 1 < (1 + rate / 12 / 100) ^ n.toNat :=
    one_lt_pow₀ h1 (by omega)
  have hA0 : (0 : ℚ) < (1 + rate / 12 / 100) ^ n.toNat := by positivity
  have hzpow : (1 + rate / 12 / 100 : ℚ) ^ (-n) =
      ((1 + rate / 12 / 100) ^ n.toNat)⁻¹ := by
    rw [zpow_neg]
    congr 1
    rw [← zpow_natCast]
    congr 1
    omega
  have hd : 1 - ((1 + rate / 12 / 100) ^ n.toNat)⁻¹ ≠ 0 := by
    have : ((1 + rate / 12 / 100) ^ n.toNat)⁻¹ < 1 := inv_lt_one_of_one_lt₀ hA1
    intro hcon
    linarith
  rw [bal_closed _ _ _ (ne_of_gt hr0), calculate_monthly_payment_eq, hzpow]
  exact annuity_algebra (rate / 12 / 100) ((1 + rate / 12 / 100) ^ n.toNat) P
    (ne_of_gt hr0) (by linarith) (ne_of_gt hA0)

theorem schedule_length (P rate : ℚ) (n : ℤ) :
    (calculate_loan_schedule P rate n).length = n.toNat := by
  rw [calculate_loan_schedule_eq]
  exact scheduleAux_length _ _ _ _ _

theorem schedule_get? (P rate : ℚ) (n : ℤ) (i : ℕ) (h : i < n.toNat) :
    (calculate_loan_schedule P rate n).get? i =
      some { month := 1 + (i : ℤ)
             remaining_balance :=
               bal (rate / 12 / 100) (calculate_monthly_payment P rate n) P (i + 1)
             monthly_payment := calculate_monthly_payment P rate n } := by
  rw [calculate_loan_schedule_eq]
  exact scheduleAux_get? _ _ _ _ _ i h

theorem schedule_balances_get? (P rate : ℚ) (n : ℤ) (j : ℕ) (h : j < n.toNat + 1) :
    (P :: (calculate_loan_schedule P rate n).map LoanSchedule.remaining_balance).get? j =
      some (bal (rate / 12 / 100) (calculate_monthly_payment P rate n) P j) := by
  cases j with
  | zero => rfl
  | succ j =>
    rw [List.get?_cons_succ, List.get?_map, schedule_get? P rate n j (by omega)]
    rfl

/-- C1: for every principal > 0, annual rate > 0 and term ≥ 1, the schedule
returned by `calculate_loan_schedule` has strictly decreasing remaining
balances, the first entry's balance is strictly below the principal (together:
the balance list prefixed with the principal is a strictly decreasing chain),
and the final entry's remaining balance is within 0.01 of zero. -/
theorem C1_schedule_monotone_final_zero (P rate : ℚ) (n : ℤ)
    (hP : 0 < P) (hr : 0 < rate) (hn : 1 ≤ n) :
    List.Chain' (fun a b => b < a)
      (P :: (calculate_loan_schedule P rate n).map LoanSchedule.remaining_balance) ∧
    ∀ e ∈ (calculate_loan_schedule P rate n).getLast?,
      |e.remaining_balance - 0| ≤ 1 / 100 := by
  have hr0 : 0 < rate / 12 / 100 := by positivity
  have hp : P * (rate / 12 / 100) < calculate_monthly_payment P rate n :=
    payment_gt_interest P rate n hP hr hn
  have hmono := bal_le_and_decreasing (rate / 12 / 100)
    (calculate_monthly_payment P rate n) P hr0 hp
  have hlen : (P :: (calculate_loan_schedule P rate n).map
      LoanSchedule.remaining_balance).length = n.toNat + 1 := by
    simp [schedule_length]
  constructor
  · rw [List.chain'_iff_get]
    intro i hi
    rw [hlen] at hi
    have h1 := schedule_balances_get? P rate n i (by omega)
    have h2 := schedule_balances_get? P rate n (i + 1) (by omega)
    rw [List.get?_eq_get (by omega)] at h1
    rw [List.get?_eq_get (by omega)] at h2
    have e1 := Option.some.inj h1
    have e2 := Option.some.inj h2
    rw [e1, e2]
    exact (hmono i).2
  · intro e he
    have hne : n.toNat - 1 < n.toNat := by omega
    have hidx : n.toNat - 1 + 1 = n.toNat := by omega
    have hlast : (calculate_loan_schedule P rate n).getLast? =
        (calculate_loan_schedule P rate n).get? (n.toNat - 1) := by
      rw [List.getLast?_eq_getElem?, List.get?_eq_getElem?, schedule_length]
    rw [hlast, schedule_get? P rate n (n.toNat - 1) hne] at he
    simp only [Option.mem_def, Option.some.injEq] at he
    subst he
    show |bal (rate / 12 / 100) (calculate_monthly_payment P rate n) P
      (n.toNat - 1 + 1) - 0| ≤ 1 / 100
    rw [hidx, bal_final_zero P rate n hP hr hn]
    norm_num

/-- Witness for C1 at principal 100, annual rate 1200%, term 1. -/
theorem C1_schedule_monotone_final_zero_witness :
    0 < (100 : ℚ) ∧ 0 < (1200 : ℚ) ∧ 1 ≤ (1 : ℤ) ∧
    (List.Chain' (fun a b => b < a)
      ((100 : ℚ) ::
        (calculate_loan_schedule 100 1200 1).map LoanSchedule.remaining_balance) ∧
    ∀ e ∈ (calculate_loan_schedule 100 1200 1).getLast?,
      |e.remaining_balance - 0| ≤ 1 / 100) :=
  ⟨by norm_num, by norm_num, by norm_num,
    C1_schedule_monotone_final_zero 100 1200 1 (by norm_num) (by norm_num)
      (by norm_num)⟩

/-- C2: under the preconditions the denominator of the annuity formula is
nonzero and `calculate_monthly_payment` returns exactly
`(P * r) / (1 - (1 + r) ^ (-term))` with `r = rate / 12 / 100`; at principal
10000, rate 5%, term 120 the result rounds to 106.07 at 2 decimal places. -/
theorem C2_monthly_payment_formula (P rate : ℚ) (n : ℤ)
    (hP : 0 < P) (hr : 0 < rate) (hn : 1 ≤ n) :
    1 - (1 + rate / 12 / 100) ^ (-n) ≠ 0 ∧
    calculate_monthly_payment P rate n =
      (P * (rate / 12 / 100)) / (1 - (1 + rate / 12 / 100) ^ (-n)) ∧
    round2 (calculate_monthly_payment 10000 5 120) = 10607 / 100 := by
  have hr0 : 0 < rate / 12 / 100 := by positivity
  obtain ⟨hd0, _⟩ := denom_bounds (rate / 12 / 100) n hr0 hn
  refine ⟨ne_of_gt hd0, calculate_monthly_payment_eq P rate n, ?_⟩
  have hv : round (calculate_monthly_payment 10000 5 120 * 100) = 10607 := by
    rw [calculate_monthly_payment_eq, round_eq, Int.floor_eq_iff]
    constructor
    · push_cast
      norm_num
    · push_cast
      norm_num
  rw [round2, hv]
  norm_num

/-- Witness for C2 at principal 10000, annual rate 5%, term 120. -/
theorem C2_monthly_payment_formula_witness :
    0 < (10000 : ℚ) ∧ 0 < (5 : ℚ) ∧ 1 ≤ (120 : ℤ) ∧
    (1 - (1 + (5 : ℚ) / 12 / 100) ^ (-(120 : ℤ)) ≠ 0 ∧
    calculate_monthly_payment 10000 5 120 =
      ((10000 : ℚ) * ((5 : ℚ) / 12 / 100)) /
        (1 - (1 + (5 : ℚ) / 12 / 100) ^ (-(120 : ℤ))) ∧
    round2 (calculate_monthly_payment 10000 5 120) = 10607 / 100) :=
  ⟨by norm_num, by norm_num, by norm_num,
    C2_monthly_payment_formula 10000 5 120 (by norm_num) (by norm_num)
      (by norm_num)⟩

/-- C3: under the preconditions `calculate_loan_schedule` returns exactly
`term` entries; the `i`-th entry (0-based) has month `i + 1`, the constant
monthly payment of `calculate_monthly_payment`, and the balance of the
recurrence `b₀ = P`, `b_{m+1} = b_m - (payment - b_m * r)` after `i + 1`
steps. -/
theorem C3_schedule_shape (P rate : ℚ) (n : ℤ)
    (hP : 0 < P) (hr : 0 < rate) (hn : 1 ≤ n) :
    ((calculate_loan_schedule P rate n).length : ℤ) = n ∧
    ∀ i : ℕ, i < (calculate_loan_schedule P rate n).length →
      (calculate_loan_schedule P rate n).get? i =
        some { month := 1 + (i : ℤ)
               remaining_balance :=
                 bal (rate / 12 / 100) (calculate_monthly_payment P rate n) P (i + 1)
               monthly_payment := calculate_monthly_payment P rate n } := by
  constructor
  · rw [schedule_length]
    omega
  · intro i hi
    rw [schedule_length] at hi
    exact schedule_get? P rate n i hi

/-- Witness for C3 at principal 100, annual rate 1200%, term 1. -/
theorem C3_schedule_shape_witness :
    0 < (100 : ℚ) ∧ 0 < (1200 : ℚ) ∧ 1 ≤ (1 : ℤ) ∧
    (((calculate_loan_schedule 100 1200 1).length : ℤ) = 1 ∧
    ∀ i : ℕ, i < (calculate_loan_schedule 100 1200 1).length →
      (calculate_loan_schedule 100 1200 1).get? i =
        some { month := 1 + (i : ℤ)
               remaining_balance :=
                 bal ((1200 : ℚ) / 12 / 100)
                   (calculate_monthly_payment 100 1200 1) 100 (i + 1)
               monthly_payment := calculate_monthly_payment 100 1200 1 }) :=
  ⟨by norm_num, by norm_num, by norm_num,
    C3_schedule_shape 100 1200 1 (by norm_num) (by norm_num) (by norm_num)⟩

theorem calculate_loan_summary_of_get? (amount : ℚ) (m : ℕ) (hm : 1 ≤ m)
    (schedule : List LoanSchedule) (em e0 : LoanSchedule)
    (h1 : schedule.get? (m - 1) = some em) (h0 : schedule.get? 0 = some e0) :
    calculate_loan_summary amount (m : ℤ) schedule =
      some { current_principal_balance := em.remaining_balance
             aggregate_principal_paid := amount - em.remaining_balance
             aggregate_interest_paid :=
               e0.monthly_payment * (m : ℚ) - (amount - em.remaining_balance) } := by
  have hA : pyGet schedule ((m : ℤ) - 1) = some em := by
    simp only [pyGet]
    rw [if_pos (by omega)]
    have ht : ((m : ℤ) - 1).toNat = m - 1 := by omega
    rw [ht, h1]
  have hB : pyGet schedule (0 : ℤ) = some e0 := by
    simp only [pyGet]
    rw [if_pos le_rfl]
    simpa using h0
  simp only [calculate_loan_summary, hA, hB]
  norm_num

/-- C4: `calculate_loan_summary` returns the 1-based `m`-th entry's balance as
the current principal balance, `amount` minus it as aggregate principal paid,
and the first entry's payment times `m` minus the principal paid as aggregate
interest paid; at the 10000 / 5% / 120-month loan and month 24 the three
values round to 8378.06, 1621.94 and 923.63. -/
theorem C4_summary_fields (amount P rate : ℚ) (n : ℤ) (m : ℕ)
    (h1 : 1 ≤ m) (h2 : m ≤ (calculate_loan_schedule P rate n).length) :
    (∃ em e0,
      (calculate_loan_schedule P rate n).get? (m - 1) = some em ∧
      (calculate_loan_schedule P rate n).get? 0 = some e0 ∧
      calculate_loan_summary amount (m : ℤ) (calculate_loan_schedule P rate n) =
        some { current_principal_balance := em.remaining_balance
               aggregate_principal_paid := amount - em.remaining_balance
               aggregate_interest_paid :=
                 e0.monthly_payment * (m : ℚ) - (amount - em.remaining_balance) }) ∧
    (∃ su,
      calculate_loan_summary 10000 ((24 : ℕ) : ℤ)
          (calculate_loan_schedule 10000 5 120) = some su ∧
      round2 su.current_principal_balance = 837806 / 100 ∧
      round2 su.aggregate_principal_paid = 162194 / 100 ∧
      round2 su.aggregate_interest_paid = 92363 / 100) := by
  have hlen := schedule_length P rate n
  have hem := schedule_get? P rate n (m - 1) (by omega)
  have he0 := schedule_get? P rate n 0 (by omega)
  refine ⟨⟨_, _, hem, he0,
    calculate_loan_summary_of_get? amount m h1 _ _ _ hem he0⟩, ?_⟩
  have c24 := schedule_get? 10000 5 120 23 (by norm_num)
  have c0 := schedule_get? 10000 5 120 0 (by norm_num)
  have hsum := calculate_loan_summary_of_get? 10000 24 (by norm_num) _ _ _ c24 c0
  refine ⟨_, hsum, ?_, ?_, ?_⟩
  · show round2 (bal ((5 : ℚ) / 12 / 100)
      (calculate_monthly_payment 10000 5 120) 10000 (23 + 1)) = 837806 / 100
    rw [round2]
    have hv : round (bal ((5 : ℚ) / 12 / 100)
        (calculate_monthly_payment 10000 5 120) 10000 (23 + 1) * 100) = 837806 := by
      rw [bal_closed _ _ _ (by norm_num), calculate_monthly_payment_eq,
        round_eq, Int.floor_eq_iff]
      constructor
      · push_cast
        norm_num
      · push_cast
        norm_num
    rw [hv]
    norm_num
  · show round2 (10000 - bal ((5 : ℚ) / 12 / 100)
      (calculate_monthly_payment 10000 5 120) 10000 (23 + 1)) = 162194 / 100
    rw [round2]
    have hv : round ((10000 - bal ((5 : ℚ) / 12 / 100)
        (calculate_monthly_payment 10000 5 120) 10000 (23 + 1)) * 100) = 162194 := by
      rw [bal_closed _ _ _ (by norm_num), calculate_monthly_payment_eq,
        round_eq, Int.floor_eq_iff]
      constructor
      · push_cast
        norm_num
      · push_cast
        norm_num
    rw [hv]
    norm_num
  · show round2 (calculate_monthly_payment 10000 5 120 * ((24 : ℕ) : ℚ) -
      (10000 - bal ((5 : ℚ) / 12 / 100)
        (calculate_monthly_payment 10000 5 120) 10000 (23 + 1))) = 92363 / 100
    rw [round2]
    have hv : round ((calculate_monthly_payment 10000 5 120 * ((24 : ℕ) : ℚ) -
        (10000 - bal ((5 : ℚ) / 12 / 100)
          (calculate_monthly_payment 10000 5 120) 10000 (23 + 1))) * 100) = 92363 := by
      rw [bal_closed _ _ _ (by norm_num), calculate_monthly_payment_eq,
        round_eq, Int.floor_eq_iff]
      constructor
      · push_cast
        norm_num
      · push_cast
        norm_num
    rw [hv]
    norm_num

/-- Witness for C4 at amount 100, principal 100, rate 1200%, term 1, month 1. -/
theorem C4_summary_fields_witness :
    1 ≤ 1 ∧ 1 ≤ (calculate_loan_schedule 100 1200 1).length ∧
    ((∃ em e0,
      (calculate_loan_schedule 100 1200 1).get? (1 - 1) = some em ∧
      (calculate_loan_schedule 100 1200 1).get? 0 = some e0 ∧
      calculate_loan_summary 100 ((1 : ℕ) : ℤ) (calculate_loan_schedule 100 1200 1) =
        some { current_principal_balance := em.remaining_balance
               aggregate_principal_paid := 100 - em.remaining_balance
               aggregate_interest_paid :=
                 e0.monthly_payment * ((1 : ℕ) : ℚ) - (100 - em.remaining_balance) }) ∧
    (∃ su,
      calculate_loan_summary 10000 ((24 : ℕ) : ℤ)
          (calculate_loan_schedule 10000 5 120) = some su ∧
      round2 su.current_principal_balance = 837806 / 100 ∧
      round2 su.aggregate_principal_paid = 162194 / 100 ∧
      round2 su.aggregate_interest_paid = 92363 / 100)) :=
  ⟨le_rfl, by rw [schedule_length]; norm_num,
    C4_summary_fields 100 100 1200 1 1 le_rfl (by rw [schedule_length]; norm_num)⟩

theorem payment_db1 : calculate_monthly_payment 100 1200 1 = 200 := by
  rw [calculate_monthly_payment_eq]
  norm_num

theorem schedule_db1 : calculate_loan_schedule 100 1200 1 =
    [{ month := 1, remaining_balance := 0, monthly_payment := 200 }] := by
  rw [calculate_loan_schedule_eq, payment_db1]
  norm_num [scheduleAux]

theorem summary_db1_month0 :
    calculate_loan_summary 100 0
      [{ month := 1, remaining_balance := 0, monthly_payment := 200 }] =
      some { current_principal_balance := 0
             aggregate_principal_paid := 100
             aggregate_interest_paid := -100 } := by
  simp only [calculate_loan_summary, pyGet]
  norm_num

/-- Counterexample to C5: on the loan of `db1` (term 1) a summary request with
`month = 0` does not fail: it returns a 200 summary (with negative aggregate
interest), so "month = 0 fails with InvalidInput" is false. -/
theorem C5_counterexample_month_zero_ok :
    loan_summary db1 1 0 =
      .ok { current_principal_balance := 0
            aggregate_principal_paid := 100
            aggregate_interest_paid := -100 } ∧
    ∀ e, loan_summary db1 1 0 ≠ .error e := by
  have hget : getLoan db1 1 =
      some { id := 1, amount := 100, annual_interest_rate := 1200,
             loan_term := 1, user_id := 1 } := rfl
  have h2 : loan_summary db1 1 0 =
      .ok { current_principal_balance := 0
            aggregate_principal_paid := 100
            aggregate_interest_paid := -100 } := by
    simp only [loan_summary, hget]
    rw [if_neg (by norm_num), schedule_db1, summary_db1_month0]
  refine ⟨h2, fun e he => ?_⟩
  rw [h2] at he
  exact Except.noConfusion he

/-- C5 amended: a summary request with a month parameter strictly greater than
the loan's term — in particular month = loan_term + 1 — fails with HTTP 400
("Invalid month number") and returns no summary; months ≤ loan_term, including
month = 0, are not rejected by this check. -/
theorem C5_amended_month_above_term_fails (db : DB) (loan_id month : ℤ)
    (loan : Loan) (hget : getLoan db loan_id = some loan)
    (hm : loan.loan_term < month) :
    loan_summary db loan_id month =
      .error { status_code := 400, detail := "Invalid month number" } := by
  simp only [loan_summary, hget]
  rw [if_pos hm]

/-- Witness for the amended C5 on `db1` at month = term + 1 = 2. -/
theorem C5_amended_month_above_term_fails_witness :
    getLoan db1 1 = some { id := 1, amount := 100, annual_interest_rate := 1200,
                           loan_term := 1, user_id := 1 } ∧
    (1 : ℤ) < 2 ∧
    loan_summary db1 1 2 =
      .error { status_code := 400, detail := "Invalid month number" } :=
  ⟨rfl, by norm_num,
    C5_amended_month_above_term_fails db1 1 2 _ rfl (by norm_num)⟩

/-- C10: for a stored loan (positive amount and rate, term ≥ 1) a summary
request with `month = 0` is not rejected: the only range check is
`month > loan_term`, and `schedule[month - 1]` with `month = 0` is Python
index `-1`, the last entry.  The endpoint returns a 200 summary whose current
principal balance is the final entry's balance and whose aggregate interest
paid is `payment * 0 - principal_paid = 0 - principal_paid`, which is
negative. -/
theorem C10_month_zero_returns_last_entry (db : DB) (loan_id : ℤ) (loan : Loan)
    (hget : getLoan db loan_id = some loan) (hP : 0 < loan.amount)
    (hr : 0 < loan.annual_interest_rate) (hn : 1 ≤ loan.loan_term) :
    ∃ last,
      (calculate_loan_schedule loan.amount loan.annual_interest_rate
        loan.loan_term).getLast? = some last ∧
      loan_summary db loan_id 0 =
        .ok { current_principal_balance := last.remaining_balance
              aggregate_principal_paid := loan.amount - last.remaining_balance
              aggregate_interest_paid :=
                0 - (loan.amount - last.remaining_balance) } ∧
      0 - (loan.amount - last.remaining_balance) < 0 := by
  have hlen := schedule_length loan.amount loan.annual_interest_rate loan.loan_term
  have hk : 1 ≤ loan.loan_term.toNat := by omega
  have hem := schedule_get? loan.amount loan.annual_interest_rate loan.loan_term
    (loan.loan_term.toNat - 1) (by omega)
  have he0 := schedule_get? loan.amount loan.annual_interest_rate loan.loan_term
    0 (by omega)
  have hbal : bal (loan.annual_interest_rate / 12 / 100)
      (calculate_monthly_payment loan.amount loan.annual_interest_rate loan.loan_term)
      loan.amount (loan.loan_term.toNat - 1 + 1) = 0 := by
    have hidx : loan.loan_term.toNat - 1 + 1 = loan.loan_term.toNat := by omega
    rw [hidx]
    exact bal_final_zero loan.amount loan.annual_interest_rate loan.loan_term
      hP hr hn
  have hlast : (calculate_loan_schedule loan.amount loan.annual_interest_rate
      loan.loan_term).getLast? =
      (calculate_loan_schedule loan.amount loan.annual_interest_rate
        loan.loan_term).get? (loan.loan_term.toNat - 1) := by
    rw [List.getLast?_eq_getElem?, List.get?_eq_getElem?, hlen]
  have hA : pyGet (calculate_loan_schedule loan.amount loan.annual_interest_rate
      loan.loan_term) (0 - 1) =
      (calculate_loan_schedule loan.amount loan.annual_interest_rate
        loan.loan_term).get? (loan.loan_term.toNat - 1) := by
    simp only [pyGet]
    rw [if_neg (by norm_num), if_pos (by rw [hlen]; omega)]
    congr 1
    rw [hlen]
    omega
  have hB : pyGet (calculate_loan_schedule loan.amount loan.annual_interest_rate
      loan.loan_term) 0 =
      (calculate_loan_schedule loan.amount loan.annual_interest_rate
        loan.loan_term).get? 0 := by
    simp only [pyGet]
    rw [if_pos le_rfl]
    rfl
  refine ⟨_, by rw [hlast]; exact hem, ?_, ?_⟩
  · have hsum : calculate_loan_summary loan.amount 0
        (calculate_loan_schedule loan.amount loan.annual_interest_rate
          loan.loan_term) =
        some { current_principal_balance :=
                 bal (loan.annual_interest_rate / 12 / 100)
                   (calculate_monthly_payment loan.amount
                     loan.annual_interest_rate loan.loan_term)
                   loan.amount (loan.loan_term.toNat - 1 + 1)
               aggregate_principal_paid :=
                 loan.amount - bal (loan.annual_interest_rate / 12 / 100)
                   (calculate_monthly_payment loan.amount
                     loan.annual_interest_rate loan.loan_term)
                   loan.amount (loan.loan_term.toNat - 1 + 1)
               aggregate_interest_paid :=
                 0 - (loan.amount - bal (loan.annual_interest_rate / 12 / 100)
                   (calculate_monthly_payment loan.amount
                     loan.annual_interest_rate loan.loan_term)
                   loan.amount (loan.loan_term.toNat - 1 + 1)) } := by
      simp only [calculate_loan_summary, hA, hB, hem, he0]
      norm_num
    simp only [loan_summary, hget]
    rw [if_neg (by omega), hsum]
  · show (0 : ℚ) - (loan.amount - bal (loan.annual_interest_rate / 12 / 100)
      (calculate_monthly_payment loan.amount loan.annual_interest_rate
        loan.loan_term) loan.amount (loan.loan_term.toNat - 1 + 1)) < 0
    rw [hbal]
    linarith

/-- Witness for C10 on the loan of `db1` (amount 100, rate 1200%, term 1). -/
theorem C10_month_zero_returns_last_entry_witness :
    getLoan db1 1 = some { id := 1, amount := 100, annual_interest_rate := 1200,
                           loan_term := 1, user_id := 1 } ∧
    (0 : ℚ) < 100 ∧ (0 : ℚ) < 1200 ∧ (1 : ℤ) ≤ 1 ∧
    (∃ last,
      (calculate_loan_schedule 100 1200 1).getLast? = some last ∧
      loan_summary db1 1 0 =
        .ok { current_principal_balance := last.remaining_balance
              aggregate_principal_paid := 100 - last.remaining_balance
              aggregate_interest_paid := 0 - (100 - last.remaining_balance) } ∧
      0 - (100 - last.remaining_balance) < 0) :=
  ⟨rfl, by norm_num, by norm_num, le_rfl,
    C10_month_zero_returns_last_entry db1 1 _ rfl (by norm_num) (by norm_num)
      (by norm_num)⟩

/-- Counterexample to C6: sharing the loan of `db2` with its own owner fails
with HTTP status 404, not 400 and not 409. -/
theorem C6_counterexample_self_share_status_404 :
    share_loan db2 1 1 =
      .error { status_code := 404,
               detail := "Loan cannot be shared with the original owner" } ∧
    (404 : ℕ) ≠ 400 ∧ (404 : ℕ) ≠ 409 :=
  ⟨rfl, by norm_num, by norm_num⟩

/-- C6 amended: sharing a loan with its owner fails with HTTP 404 (the code
raises 404, not 400/409) and creates nothing; with an existing recipient
distinct from the owner it appends a new loan with identical
amount/rate/term and the recipient's id, leaving the user table and every
existing loan row (in particular the original) unchanged. -/
theorem C6_amended_share (db : DB) (loan_id rid : ℤ) (loan : Loan)
    (recipient : User) (hl : getLoan db loan_id = some loan)
    (hu : getUser db rid = some recipient) :
    (loan.user_id = recipient.id →
      share_loan db loan_id rid =
        .error { status_code := 404,
                 detail := "Loan cannot be shared with the original owner" }) ∧
    (loan.user_id ≠ recipient.id →
      ∃ db' new_loan,
        share_loan db loan_id rid = .ok (db', new_loan) ∧
        new_loan.amount = loan.amount ∧
        new_loan.annual_interest_rate = loan.annual_interest_rate ∧
        new_loan.loan_term = loan.loan_term ∧
        new_loan.user_id = recipient.id ∧
        db'.users = db.users ∧
        db'.loans = db.loans ++ [new_loan] ∧
        loan ∈ db'.loans) := by
  constructor
  · intro h
    have hif : (loan.user_id == recipient.id) = true := beq_iff_eq.mpr h
    simp only [share_loan, hl, hu, hif, if_true]
  · intro h
    have hif : (loan.user_id == recipient.id) = false := beq_eq_false_iff_ne.mpr h
    simp only [share_loan, hl, hu, hif, Bool.false_eq_true, if_false]
    exact ⟨_, _, rfl, rfl, rfl, rfl, rfl, rfl, rfl,
      List.mem_append_left _ (List.mem_of_find?_eq_some hl)⟩

/-- Witness for the amended C6 on `db2`: share loan 1 (owner 1) with user 2. -/
theorem C6_amended_share_witness :
    getLoan db2 1 = some { id := 1, amount := 1000, annual_interest_rate := 5,
                           loan_term := 12, user_id := 1 } ∧
    getUser db2 2 = some { id := 2, username := "bob" } ∧
    (((1 : ℤ) = 2 →
      share_loan db2 1 2 =
        .error { status_code := 404,
                 detail := "Loan cannot be shared with the original owner" }) ∧
    ((1 : ℤ) ≠ 2 →
      ∃ db' new_loan,
        share_loan db2 1 2 = .ok (db', new_loan) ∧
        new_loan.amount = 1000 ∧
        new_loan.annual_interest_rate = 5 ∧
        new_loan.loan_term = 12 ∧
        new_loan.user_id = 2 ∧
        db'.users = db2.users ∧
        db'.loans = db2.loans ++ [new_loan] ∧
        { id := 1, amount := 1000, annual_interest_rate := 5,
          loan_term := 12, user_id := 1 } ∈ db'.loans)) :=
  ⟨rfl, rfl, C6_amended_share db2 1 2 _ _ rfl rfl⟩

/-- Counterexample to C7: creating a loan for a user id that references no
existing user (the database is empty) succeeds — the handler never checks
the user, so the claimed 404 on unknown `user_id` does not happen. -/
theorem C7_counterexample_unknown_user_ok :
    getUser db0 1 = none ∧
    ∃ db' loan,
      create_loan db0 lcValid = .ok (db', loan) ∧
      loan.user_id = 1 := by
  refine ⟨rfl, ?_⟩
  simp only [create_loan]
  rw [if_neg (by norm_num [lcValid, decimalPlacesAtMost]),
    if_neg (by norm_num [lcValid, decimalPlacesAtMost]),
    if_neg (by norm_num [lcValid, decimalPlacesAtMost]),
    if_neg (by norm_num [lcValid, decimalPlacesAtMost]),
    if_neg (by norm_num [lcValid]), if_neg (by norm_num [lcValid]),
    if_neg (by norm_num [lcValid])]
  exact ⟨_, _, rfl, rfl⟩

theorem decimalPlacesAtMost_of_mul_eq_intCast (d : ℕ) (q : ℚ) (z : ℤ)
    (h : q * 10 ^ d = (z : ℚ)) : decimalPlacesAtMost d q := by
  rw [decimalPlacesAtMost, h, Rat.den_intCast]

/-- C7 amended: request validation rejects `amount < 1`, an amount with more
than 2 decimal places, a non-positive rate, and a rate with more than 4
decimal places, each with HTTP 422; the handler rejects `loan_term ≤ 0` with
HTTP 404 (not 400); the `user_id` is never checked against the user table,
and whenever validation passes a loan row is appended even if no such user
exists. -/
theorem C7_amended_create_loan (db : DB) (lc : LoanCreate) :
    (lc.amount < 1 →
      create_loan db lc =
        .error { status_code := 422,
                 detail := "Input should be greater than or equal to 1" }) ∧
    (1 ≤ lc.amount → ¬ decimalPlacesAtMost 2 lc.amount →
      create_loan db lc =
        .error { status_code := 422,
                 detail := "Decimal input should have no more than 2 decimal places" }) ∧
    (1 ≤ lc.amount → decimalPlacesAtMost 2 lc.amount →
      lc.annual_interest_rate ≤ 0 →
      create_loan db lc =
        .error { status_code := 422, detail := "Input should be greater than 0" }) ∧
    (1 ≤ lc.amount → decimalPlacesAtMost 2 lc.amount →
      0 < lc.annual_interest_rate →
      ¬ decimalPlacesAtMost 4 lc.annual_interest_rate →
      create_loan db lc =
        .error { status_code := 422,
                 detail := "Decimal input should have no more than 4 decimal places" }) ∧
    (1 ≤ lc.amount → decimalPlacesAtMost 2 lc.amount →
      0 < lc.annual_interest_rate →
      decimalPlacesAtMost 4 lc.annual_interest_rate → lc.loan_term ≤ 0 →
      create_loan db lc =
        .error { status_code := 404,
                 detail := "Loan term cannot be negative or zero" }) ∧
    (1 ≤ lc.amount → decimalPlacesAtMost 2 lc.amount →
      0 < lc.annual_interest_rate →
      decimalPlacesAtMost 4 lc.annual_interest_rate → 1 ≤ lc.loan_term →
      ∃ loan,
        create_loan db lc = .ok ({ db with loans := db.loans ++ [loan] }, loan) ∧
        loan.user_id = lc.user_id ∧
        loan.amount = lc.amount ∧
        loan.annual_interest_rate = lc.annual_interest_rate ∧
        loan.loan_term = lc.loan_term) := by
  refine ⟨fun h1 => ?_, fun h1 h2 => ?_, fun h1 h2 h3 => ?_,
    fun h1 h2 h3 h4 => ?_, fun h1 h2 h3 h4 h5 => ?_, fun h1 h2 h3 h4 h5 => ?_⟩
  · simp only [create_loan]
    rw [if_pos (not_le.mpr h1)]
  · simp only [create_loan]
    rw [if_neg (not_not_intro h1), if_pos h2]
  · simp only [create_loan]
    rw [if_neg (not_not_intro h1), if_neg (not_not_intro h2),
      if_pos (not_lt.mpr h3)]
  · simp only [create_loan]
    rw [if_neg (not_not_intro h1), if_neg (not_not_intro h2),
      if_neg (not_not_intro h3), if_pos h4]
  · simp only [create_loan]
    rw [if_neg (not_not_intro h1), if_neg (not_not_intro h2),
      if_neg (not_not_intro h3), if_neg (not_not_intro h4),
      if_neg (not_le.mpr (by linarith)), if_pos h5]
  · simp only [create_loan]
    rw [if_neg (not_not_intro h1), if_neg (not_not_intro h2),
      if_neg (not_not_intro h3), if_neg (not_not_intro h4),
      if_neg (not_le.mpr (by linarith)), if_neg (not_le.mpr (by omega)),
      if_neg (not_le.mpr (by linarith))]
    exact ⟨_, rfl, rfl, rfl, rfl, rfl⟩

/-- Witness for the amended C7: a valid request on the empty database
succeeds (fourth branch), and an `amount` of 0 is rejected with 422 (first
branch). -/
theorem C7_amended_create_loan_witness :
    (1 ≤ (1000 : ℚ) ∧ decimalPlacesAtMost 2 (1000 : ℚ) ∧ 0 < (5 : ℚ) ∧
      decimalPlacesAtMost 4 (5 : ℚ) ∧ 1 ≤ (12 : ℤ) ∧
      ∃ loan,
        create_loan db0 lcValid =
          .ok ({ db0 with loans := db0.loans ++ [loan] }, loan) ∧
        loan.user_id = 1 ∧
        loan.amount = 1000 ∧
        loan.annual_interest_rate = 5 ∧
        loan.loan_term = 12) ∧
    ((0 : ℚ) < 1 ∧
      create_loan db0 lcZeroAmount =
        .error { status_code := 422,
                 detail := "Input should be greater than or equal to 1" }) :=
  ⟨⟨by norm_num,
    decimalPlacesAtMost_of_mul_eq_intCast 2 1000 100000 (by norm_num),
    by norm_num,
    decimalPlacesAtMost_of_mul_eq_intCast 4 5 50000 (by norm_num),
    by norm_num,
    (C7_amended_create_loan db0 lcValid).2.2.2.2.2 (by norm_num [lcValid])
      (decimalPlacesAtMost_of_mul_eq_intCast 2 _ 100000 (by norm_num [lcValid]))
      (by norm_num [lcValid])
      (decimalPlacesAtMost_of_mul_eq_intCast 4 _ 50000 (by norm_num [lcValid]))
      (by norm_num [lcValid])⟩,
   ⟨by norm_num,
    (C7_amended_create_loan db0 lcZeroAmount).1 (by norm_num [lcZeroAmount])⟩⟩

/-- C8: evaluation at the failing input.  `db2` has users 1 and 2 and a single
loan owned by user 1.  Listing user 2's loans returns that loan — a loan
owned by a different user — because the query filters `Loan.user_id ==
User.id` (any existing owner) instead of comparing against the requested
`user_id`. -/
theorem C8_bug_other_users_loan_included :
    getUser db2 2 = some { id := 2, username := "bob" } ∧
    user_loans db2 2 =
      .ok [{ id := 1, amount := 1000, annual_interest_rate := 5,
             loan_term := 12, user_id := 1 }] ∧
    (1 : ℤ) ≠ 2 :=
  ⟨rfl, rfl, by norm_num⟩

/-- Counterexample to C9: creating a user with an empty name does not fail —
no validation is performed, and the row is persisted. -/
theorem C9_counterexample_empty_name_ok :
    create_user db0 "" =
      .ok ({ users := [{ id := 1, username := "" }], loans := [] },
           { id := 1, username := "" }) ∧
    ∀ e, create_user db0 "" ≠ .error e := by
  constructor
  · rfl
  · intro e he
    exact Except.noConfusion he

theorem le_foldr_max (l : List ℤ) (b a : ℤ) (h : a ∈ l) : a ≤ l.foldr max b := by
  induction l with
  | nil => cases h
  | cons x xs ih =>
    rcases List.mem_cons.mp h with rfl | h2
    · exact le_max_left _ _
    · exact le_trans (ih h2) (le_max_right _ _)

/-- C9 amended: creating a user succeeds for every name, the empty string
included: the returned user carries the requested name and a freshly assigned
identifier (distinct from every existing user's id), and the row is appended
to the user table; no name validation is performed. -/
theorem C9_amended_create_user_always_succeeds (db : DB) (name : String) :
    ∃ db' u,
      create_user db name = .ok (db', u) ∧
      u.username = name ∧
      db'.users = db.users ++ [u] ∧
      db'.loans = db.loans ∧
      ∀ v ∈ db.users, v.id ≠ u.id := by
  refine ⟨_, _, rfl, rfl, rfl, rfl, fun v hv => ?_⟩
  have hle : v.id ≤ (db.users.map User.id).foldr max 0 :=
    le_foldr_max _ 0 _ (List.mem_map_of_mem _ hv)
  show v.id ≠ nextUserId db
  rw [nextUserId]
  omega

/-- Witness for the amended C9 on `db1` with the name "bob". -/
theorem C9_amended_create_user_always_succeeds_witness :
    ∃ db' u,
      create_user db1 "bob" = .ok (db', u) ∧
      u.username = "bob" ∧
      db'.users = db1.users ++ [u] ∧
      db'.loans = db1.loans ∧
      ∀ v ∈ db1.users, v.id ≠ u.id :=
  C9_amended_create_user_always_succeeds db1 "bob"

end LoanApp
